import Mathlib

/-!
Verification of the two scripts of this repository against their
natural-language specification.

`SystemAgents` embeds `src/System_Agents.py` (class `SystemMonitorAgent`):
the constructor, the CPU monitoring loop `monitor_cpu`, the alert helper
`alert_high_cpu`, the memory report `monitor_memory`, the snapshot query
`get_system_info`, `stop_monitoring` and the `monitor_system` entry point.

`BitcoinPrice` embeds `src/Bitcoin_price.py` (class `BitcoinPriceAgent`):
the method `fetch_bitcoin_price` with its exception handlers.

The embedding makes the effects explicit: prints become events, the OS is an
environment record, exceptions are an explicit `raised` outcome that the
`try`/`except` wrappers translate, and the unbounded `while` loop is driven
by a finite script of per-cycle environment behaviours (a run that outlives
its script is reported as still `running`).
-/

namespace SystemAgents

/-- The mutable attributes of a `SystemMonitorAgent` object:
`cpu_threshold`, `check_interval`, `is_monitoring` (source lines 30-32). -/
structure AgentState where
  cpu_threshold : ℚ
  check_interval : ℤ
  is_monitoring : Bool
deriving DecidableEq, Repr

/-- The constructor `__init__` (source lines 22-36): stores both parameters
unchanged and sets `is_monitoring` to `False`.  It performs no validation of
either parameter. -/
def mkAgent (cpu_threshold : ℚ) (check_interval : ℤ) : AgentState :=
  { cpu_threshold := cpu_threshold
    check_interval := check_interval
    is_monitoring := false }

/-- Modelled from the spec: the spec's `configure(cpuThreshold, checkInterval)`
contract, which "validates `checkInterval > 0`" and rejects
`checkIntervalSeconds <= 0` at configuration time with a validation failure.
This validating constructor is absent from the source; it is stated here only
to compare the spec's words with the code's `mkAgent`. -/
def configure_spec (cpuThreshold : ℚ) (checkInterval : ℤ) : Option AgentState :=
  if checkInterval > 0 then
    some { cpu_threshold := cpuThreshold
           check_interval := checkInterval
           is_monitoring := false }
  else none

/-- One console event emitted by the monitoring script.  Timestamps are
abstracted to the natural number supplied by the cycle's environment. -/
inductive Event where
  | normal (time : ℕ) (cpu : ℚ)
  | alert (time : ℕ) (cpu : ℚ) (threshold : ℚ) (excess : ℚ)
  | userStop
  | monitorError
deriving DecidableEq, Repr

/-- Whether an event is an alert. -/
def Event.isAlert : Event → Bool
  | .alert _ _ _ _ => true
  | _ => false

/-- `alert_high_cpu` (source lines 71-88): the alert block prints the
timestamp, the CPU usage, the threshold `self.cpu_threshold` and the excess
`cpu_usage - self.cpu_threshold`. -/
def alert_high_cpu (st : AgentState) (cpu_usage : ℚ) (timestamp : ℕ) : Event :=
  Event.alert timestamp cpu_usage st.cpu_threshold (cpu_usage - st.cpu_threshold)

/-- The comparison step of one cycle (source lines 56-59):
`if cpu_usage > self.cpu_threshold` call `alert_high_cpu`, else print the
normal-status line. -/
def cycleEvent (st : AgentState) (time : ℕ) (cpu_usage : ℚ) : Event :=
  if cpu_usage > st.cpu_threshold then alert_high_cpu st cpu_usage time
  else Event.normal time cpu_usage

/-- What the environment does during one iteration of the `while` loop:
the sampling call `psutil.cpu_percent(interval=1)` either returns a value
(and the following `time.sleep` completes, or is interrupted by
`KeyboardInterrupt`), or itself raises. -/
inductive SampleOutcome where
  | ok (cpu : ℚ)
  | okThenInterrupt (cpu : ℚ)
  | sampleRaise
  | sampleInterrupt
deriving DecidableEq, Repr

/-- The per-cycle script entry: the timestamp `datetime.now()` would render,
the sampling outcome, and whether `stop_monitoring` is invoked from another
thread at some point during this cycle (after the loop-top check). -/
structure CycleInput where
  time : ℕ
  outcome : SampleOutcome
  stopDuring : Bool
deriving DecidableEq, Repr

/-- A Python exception escaping the loop body: `KeyboardInterrupt` or any
other `Exception`. -/
inductive PyExn where
  | keyboardInterrupt
  | exn
deriving DecidableEq, Repr

/-- How the bare `while` loop (source lines 50-62, without the surrounding
`try`/`except`) ends: the loop condition became false (`normalReturn`), the
finite script ran out while the loop was still going (`scriptEnd`), or an
exception escaped (`raised`). -/
inductive LoopExit where
  | normalReturn (st : AgentState)
  | scriptEnd (st : AgentState)
  | raised (e : PyExn)
deriving DecidableEq, Repr

/-- `stop_monitoring` (source lines 133-141): sets `is_monitoring` to
`False`. -/
def stop_monitoring (st : AgentState) : AgentState :=
  { st with is_monitoring := false }

/-- The bare `while self.is_monitoring` loop of `monitor_cpu`
(source lines 50-62): at the top of each iteration the flag is checked; a
successful cycle samples, emits `cycleEvent`, sleeps, and repeats; a raising
cycle propagates its exception (emitting the cycle's event first when the
interrupt arrives during the sleep, after the print). -/
def loopRaw (st : AgentState) : List CycleInput → List Event × LoopExit
  | [] =>
      if st.is_monitoring then ([], LoopExit.scriptEnd st)
      else ([], LoopExit.normalReturn st)
  | i :: rest =>
      if st.is_monitoring then
        match i.outcome with
        | .ok cpu =>
            let ev := cycleEvent st i.time cpu
            let st' := if i.stopDuring then stop_monitoring st else st
            let r := loopRaw st' rest
            (ev :: r.1, r.2)
        | .okThenInterrupt cpu =>
            ([cycleEvent st i.time cpu], LoopExit.raised PyExn.keyboardInterrupt)
        | .sampleRaise => ([], LoopExit.raised PyExn.exn)
        | .sampleInterrupt => ([], LoopExit.raised PyExn.keyboardInterrupt)
      else ([], LoopExit.normalReturn st)

/-- Result of a call to `monitor_cpu`: either the method returned
(`finished`, with the emitted events and the final attribute values), or the
finite environment script was exhausted while the loop was still running
(`running`). -/
inductive RunResult where
  | finished (events : List Event) (final : AgentState)
  | running (events : List Event) (st : AgentState)
deriving DecidableEq, Repr

/-- The events carried by a `RunResult`. -/
def RunResult.events : RunResult → List Event
  | .finished evs _ => evs
  | .running evs _ => evs

/-- `monitor_cpu` (source lines 38-69): sets `is_monitoring = True`, runs the
loop, and catches `KeyboardInterrupt` (print "Monitoring stopped by user",
set the flag to `False`) and every other `Exception` (print the error, set
the flag to `False`). -/
def monitor_cpu (st : AgentState) (ins : List CycleInput) : RunResult :=
  let st1 : AgentState := { st with is_monitoring := true }
  match loopRaw st1 ins with
  | (evs, .normalReturn st') => RunResult.finished evs st'
  | (evs, .scriptEnd st') => RunResult.running evs st'
  | (evs, .raised .keyboardInterrupt) =>
      RunResult.finished (evs ++ [Event.userStop]) { st with is_monitoring := false }
  | (evs, .raised .exn) =>
      RunResult.finished (evs ++ [Event.monitorError]) { st with is_monitoring := false }

/-- A cycle whose sample succeeds and during which nobody calls
`stop_monitoring`. -/
def okCycle (p : ℕ × ℚ) : CycleInput :=
  { time := p.1, outcome := SampleOutcome.ok p.2, stopDuring := false }

/-- The OS metric values the `psutil` calls would return: core count,
CPU frequency (`psutil.cpu_freq()` may return `None`), the fields of
`psutil.virtual_memory()` used by the script, and `psutil.disk_usage`. -/
structure OSEnv where
  cpu_count : ℕ
  cpu_freq : Option ℚ
  memory_total : ℕ
  memory_available : ℕ
  memory_free : ℕ
  memory_percent : ℚ
  disk_total : ℕ
  disk_free : ℕ
deriving DecidableEq, Repr

/-- The value stored under `cpu_frequency` in the snapshot dict: the current
frequency in MHz, or the string `N/A` when `psutil.cpu_freq()` is `None`. -/
inductive FreqValue where
  | mhz (v : ℚ)
  | na
deriving DecidableEq, Repr

/-- The dict returned by `get_system_info` (source lines 124-131). -/
structure SystemInfo where
  cpu_count : ℕ
  cpu_frequency : FreqValue
  memory_total : ℕ
  memory_available : ℕ
  disk_total : ℕ
  disk_free : ℕ
deriving DecidableEq, Repr

/-- `get_system_info` (source lines 112-131): queries the OS metrics and
returns the dict; the pair's second component is the object state after the
call, which the method never touches. -/
def get_system_info (st : AgentState) (env : OSEnv) : SystemInfo × AgentState :=
  let cpu_freq := env.cpu_freq
  ({ cpu_count := env.cpu_count
     cpu_frequency := match cpu_freq with
       | some f => FreqValue.mhz f
       | none => FreqValue.na
     memory_total := env.memory_total
     memory_available := env.memory_available
     disk_total := env.disk_total
     disk_free := env.disk_free }, st)

/-- The divisor `1024**3` used by every GB conversion in the script. -/
def gbDivisor : ℕ := 1024 ^ 3

/-- The `:.1f` rendering of a value: rounded to one decimal place. -/
def round1 (q : ℚ) : ℚ := (round (q * 10) : ℤ) / 10

/-- The quantities printed by `monitor_memory` (source lines 96-110), each
already passed through its `:.1f` formatting. -/
structure MemoryStatusDisplay where
  time : ℕ
  total_gb : ℚ
  available_gb : ℚ
  used_percent : ℚ
  free_gb : ℚ
deriving DecidableEq, Repr

/-- `monitor_memory` (source lines 96-110): reads `psutil.virtual_memory()`
and prints total, available and free divided by `1024**3` and the used
percentage, all with `:.1f`. -/
def monitor_memory (env : OSEnv) (time : ℕ) : MemoryStatusDisplay :=
  { time := time
    total_gb := round1 ((env.memory_total : ℚ) / (gbDivisor : ℚ))
    available_gb := round1 ((env.memory_available : ℚ) / (gbDivisor : ℚ))
    used_percent := round1 env.memory_percent
    free_gb := round1 ((env.memory_free : ℚ) / (gbDivisor : ℚ)) }

/-- The system-information header printed by `monitor_system`
(source lines 154-158), with the GB quantities already `:.1f`-formatted. -/
structure SystemInfoDisplay where
  cpu_cores : ℕ
  cpu_frequency : FreqValue
  total_memory_gb : ℚ
  total_disk_gb : ℚ
deriving DecidableEq, Repr

/-- The header part of `monitor_system` (source lines 150-158): calls
`get_system_info` and prints core count, frequency, and total memory and
disk divided by `1024**3` with `:.1f`. -/
def system_info_display (st : AgentState) (env : OSEnv) : SystemInfoDisplay :=
  let system_info := (get_system_info st env).1
  { cpu_cores := system_info.cpu_count
    cpu_frequency := system_info.cpu_frequency
    total_memory_gb := round1 ((system_info.memory_total : ℚ) / (gbDivisor : ℚ))
    total_disk_gb := round1 ((system_info.disk_total : ℚ) / (gbDivisor : ℚ)) }

/-- `monitor_system` (source lines 143-161): prints the system-information
header, then starts `monitor_cpu`. -/
def monitor_system (st : AgentState) (env : OSEnv) (ins : List CycleInput) :
    SystemInfoDisplay × RunResult :=
  (system_info_display st env, monitor_cpu st ins)

end SystemAgents

namespace BitcoinPrice

/-- How `response.json()` and the subsequent field access behave on a body:
the nested field `data["bpi"]["USD"]["rate_float"]` is present, or some key
on that path is missing (`KeyError`), or the body is not JSON at all
(`response.json()` raises). -/
inductive BodyParse where
  | fields (rate_float : ℚ)
  | missingField (name : String)
  | notJson (msg : String)
deriving DecidableEq, Repr

/-- The outcome of `requests.get(self.api_url)`: a response with a status
code and a body, a `requests.exceptions.RequestException`, or any other
exception. -/
inductive HttpOutcome where
  | response (status_code : ℕ) (body : BodyParse)
  | requestExn (msg : String)
  | otherExn (msg : String)
deriving DecidableEq, Repr

/-- The Python exceptions the `try` body of `fetch_bitcoin_price` can
raise, matching its three handlers. -/
inductive PyError where
  | requestException (msg : String)
  | keyError (name : String)
  | otherError (msg : String)
deriving DecidableEq, Repr

/-- What a call to `fetch_bitcoin_price` prints. -/
inductive FetchAction where
  | priceDisplayed (price : ℚ)
  | apiFailure (status_code : ℕ)
  | networkError (msg : String)
  | parseError (name : String)
  | unexpectedError (msg : String)
deriving DecidableEq, Repr

/-- The `try` body of `fetch_bitcoin_price` (source lines 36-53): perform
the GET; on status 200 parse the JSON and read the nested field, printing
the price; on any other status print the failure message without touching
the body; exceptions propagate to the handlers. -/
def fetch_try_body (o : HttpOutcome) : Except PyError FetchAction :=
  match o with
  | .requestExn m => Except.error (PyError.requestException m)
  | .otherExn m => Except.error (PyError.otherError m)
  | .response status_code body =>
      if status_code = 200 then
        match body with
        | .fields rate_float => Except.ok (FetchAction.priceDisplayed rate_float)
        | .missingField n => Except.error (PyError.keyError n)
        | .notJson m => Except.error (PyError.otherError m)
      else Except.ok (FetchAction.apiFailure status_code)

/-- `fetch_bitcoin_price` (source lines 24-62): the `try` body wrapped in the
three handlers (`RequestException`, `KeyError`, `Exception`), each of which
prints and returns normally.  An `Except.error` result would mean an
exception escaping to the caller. -/
def fetch_bitcoin_price (o : HttpOutcome) : Except PyError FetchAction :=
  match fetch_try_body o with
  | Except.ok a => Except.ok a
  | Except.error (PyError.requestException m) => Except.ok (FetchAction.networkError m)
  | Except.error (PyError.keyError n) => Except.ok (FetchAction.parseError n)
  | Except.error (PyError.otherError m) => Except.ok (FetchAction.unexpectedError m)

end BitcoinPrice

namespace SystemAgents

/-- Updating only the flag leaves the threshold unchanged, so the cycle's
event does not depend on the flag. -/
lemma cycleEvent_set_monitoring (st : AgentState) (b : Bool) (t : ℕ) (c : ℚ) :
    cycleEvent { st with is_monitoring := b } t c = cycleEvent st t c := rfl

/-- When the flag is already down, the loop exits at the very first loop-top
check, emitting nothing. -/
lemma loopRaw_not_monitoring (st : AgentState) (h : st.is_monitoring = false)
    (ins : List CycleInput) : loopRaw st ins = ([], LoopExit.normalReturn st) := by
  cases ins <;> simp [loopRaw, h]

/-- Unfolding one successful, stop-free cycle. -/
lemma loopRaw_okCycle (st : AgentState) (h : st.is_monitoring = true)
    (p : ℕ × ℚ) (ins : List CycleInput) :
    loopRaw st (okCycle p :: ins) =
      (cycleEvent st p.1 p.2 :: (loopRaw st ins).1, (loopRaw st ins).2) := by
  simp [loopRaw, okCycle, h, stop_monitoring]

/-- A block of successful, stop-free cycles emits exactly one `cycleEvent`
per cycle and leaves the state untouched. -/
lemma loopRaw_okRun (st : AgentState) (h : st.is_monitoring = true)
    (pre : List (ℕ × ℚ)) (ins : List CycleInput) :
    loopRaw st (pre.map okCycle ++ ins) =
      ((pre.map fun p => cycleEvent st p.1 p.2) ++ (loopRaw st ins).1,
        (loopRaw st ins).2) := by
  induction pre with
  | nil => simp
  | cons p ps ih => simp [loopRaw_okCycle st h, ih]

/-- If the bare loop exits because its condition failed, the flag of the
state it returns is down. -/
lemma loopRaw_snd_normalReturn (st : AgentState) (ins : List CycleInput)
    (st' : AgentState) (h : (loopRaw st ins).2 = LoopExit.normalReturn st') :
    st'.is_monitoring = false := by
  induction ins generalizing st with
  | nil =>
      by_cases hm : st.is_monitoring
      · simp [loopRaw, hm] at h
      · simp [loopRaw, hm] at h
        rw [← h]
        simpa using hm
  | cons i rest ih =>
      by_cases hm : st.is_monitoring
      · cases ho : i.outcome <;> simp [loopRaw, hm, ho] at h
        exact ih _ h
      · simp [loopRaw, hm] at h
        rw [← h]
        simpa using hm

/-- Any alert event the bare loop can emit has an excess equal to the
sample minus the threshold recorded in the same event, and that excess is
positive. -/
lemma cycleEvent_eq_alert (st : AgentState) (t' t : ℕ) (c S T e : ℚ)
    (h : cycleEvent st t' c = Event.alert t S T e) : e = S - T ∧ 0 < e := by
  unfold cycleEvent alert_high_cpu at h
  by_cases hc : c > st.cpu_threshold
  · simp only [hc, if_pos, Event.alert.injEq] at h
    obtain ⟨-, hS, hT, he⟩ := h
    subst hS hT he
    exact ⟨rfl, sub_pos.mpr hc⟩
  · simp [hc] at h

/-- Alerts inside the bare loop's event list all come from `cycleEvent`. -/
lemma loopRaw_alert_excess (st : AgentState) (ins : List CycleInput)
    (t : ℕ) (S T e : ℚ) (h : Event.alert t S T e ∈ (loopRaw st ins).1) :
    e = S - T ∧ 0 < e := by
  induction ins generalizing st with
  | nil => by_cases hm : st.is_monitoring <;> simp [loopRaw, hm] at h
  | cons i rest ih =>
      by_cases hm : st.is_monitoring
      · cases ho : i.outcome with
        | ok c =>
            simp only [loopRaw, hm, if_pos, ho, List.mem_cons] at h
            rcases h with h | h
            · exact cycleEvent_eq_alert st i.time t c S T e h.symm
            · exact ih _ h
        | okThenInterrupt c =>
            simp only [loopRaw, hm, if_pos, ho, List.mem_singleton] at h
            exact cycleEvent_eq_alert st i.time t c S T e h.symm
        | sampleRaise => simp [loopRaw, hm, ho] at h
        | sampleInterrupt => simp [loopRaw, hm, ho] at h
      · simp [loopRaw_not_monitoring st (by simpa using hm)] at h

/-- C1: in a monitoring cycle the emitted event is an Alert exactly when the
sampled CPU value is strictly greater than the threshold; on equality the
emitted event is the Normal status event, never an Alert. -/
theorem alert_iff_strict_gt (st : AgentState) (t : ℕ) (S : ℚ) :
    ((cycleEvent st t S).isAlert = true ↔ S > st.cpu_threshold)
    ∧ (S = st.cpu_threshold → cycleEvent st t S = Event.normal t S) := by
  constructor
  · unfold cycleEvent alert_high_cpu Event.isAlert
    by_cases hc : S > st.cpu_threshold <;> simp [hc]
  · intro hEq
    unfold cycleEvent
    simp [hEq]

/-- Witness for C1 at threshold 10: the sample 21/2 alerts and the sample 10
(equality) yields the Normal event. -/
theorem alert_iff_strict_gt_witness :
    (cycleEvent (mkAgent 10 10) 0 (21/2)).isAlert = true
    ∧ cycleEvent (mkAgent 10 10) 0 10 = Event.normal 0 10 :=
  ⟨(alert_iff_strict_gt (mkAgent 10 10) 0 (21/2)).1.mpr (by norm_num [mkAgent]),
   (alert_iff_strict_gt (mkAgent 10 10) 0 10).2 (by norm_num [mkAgent])⟩

/-- C2, counterexample: constructing the agent with `check_interval = 0`
succeeds and stores the value 0 with no validation failure, whereas the
spec's validating `configure` would reject it. -/
theorem construct_zero_interval_cex :
    mkAgent 75 0 =
      { cpu_threshold := 75, check_interval := 0, is_monitoring := false }
    ∧ configure_spec 75 0 = none := by
  constructor
  · rfl
  · simp [configure_spec]

/-- C2, amended: the constructor performs no validation at configuration
time; every non-positive `check_interval` is accepted and stored as given,
producing an agent that is not yet monitoring. -/
theorem construct_accepts_nonpositive (t : ℚ) (i : ℤ) (h : i ≤ 0) :
    (mkAgent t i).check_interval = i ∧ (mkAgent t i).check_interval ≤ 0
    ∧ (mkAgent t i).is_monitoring = false :=
  ⟨rfl, h, rfl⟩

/-- Witness for the amended C2 at interval `-3`. -/
theorem construct_accepts_nonpositive_witness :
    (-3 : ℤ) ≤ 0 ∧ ((mkAgent 75 (-3)).check_interval = -3
      ∧ (mkAgent 75 (-3)).check_interval ≤ 0
      ∧ (mkAgent 75 (-3)).is_monitoring = false) :=
  ⟨by decide, construct_accepts_nonpositive 75 (-3) (by decide)⟩

/-- C3, counterexample: with threshold 10 and the script ok 5, sample-read
failure, ok 5, the failing second cycle ends the run: the error is reported,
the flag is cleared, `monitor_cpu` returns, and the third cycle never
produces an event — the loop does not continue to the next cycle. -/
theorem sample_error_cycle_not_skipped_cex :
    monitor_cpu (mkAgent 10 10)
      [{ time := 1, outcome := SampleOutcome.ok 5, stopDuring := false },
       { time := 2, outcome := SampleOutcome.sampleRaise, stopDuring := false },
       { time := 3, outcome := SampleOutcome.ok 5, stopDuring := false }]
    = RunResult.finished [Event.normal 1 5, Event.monitorError]
        { cpu_threshold := 10, check_interval := 10, is_monitoring := false } := by
  norm_num [monitor_cpu, loopRaw, cycleEvent, alert_high_cpu, mkAgent]

/-- C3, amended: a failed sample read raises an exception that the loop's
generic handler catches: after any block of successful cycles, the failing
cycle is reported as a monitoring error, `is_monitoring` is cleared, and
`monitor_cpu` returns without running any further cycle. -/
theorem sample_error_reported_and_stops (st : AgentState) (pre : List (ℕ × ℚ))
    (t : ℕ) (b : Bool) (rest : List CycleInput) :
    monitor_cpu st
      (pre.map okCycle ++
        { time := t, outcome := SampleOutcome.sampleRaise, stopDuring := b } :: rest)
    = RunResult.finished
        ((pre.map fun p => cycleEvent st p.1 p.2) ++ [Event.monitorError])
        { st with is_monitoring := false } := by
  show (match loopRaw { st with is_monitoring := true }
      (pre.map okCycle ++
        { time := t, outcome := SampleOutcome.sampleRaise, stopDuring := b } :: rest) with
    | (evs, LoopExit.normalReturn st') => RunResult.finished evs st'
    | (evs, LoopExit.scriptEnd st') => RunResult.running evs st'
    | (evs, LoopExit.raised PyExn.keyboardInterrupt) =>
        RunResult.finished (evs ++ [Event.userStop]) { st with is_monitoring := false }
    | (evs, LoopExit.raised PyExn.exn) =>
        RunResult.finished (evs ++ [Event.monitorError])
          { st with is_monitoring := false }) = _
  rw [loopRaw_okRun { st with is_monitoring := true } rfl]
  simp [loopRaw, cycleEvent_set_monitoring]

/-- Alert events of a full `monitor_cpu` run all come from the bare loop:
the two handler events are not alerts. -/
lemma monitor_cpu_alert_mem (st : AgentState) (ins : List CycleInput)
    (t : ℕ) (S T e : ℚ)
    (h : Event.alert t S T e ∈ (monitor_cpu st ins).events) :
    Event.alert t S T e ∈ (loopRaw { st with is_monitoring := true } ins).1 := by
  rcases hl : loopRaw { st with is_monitoring := true } ins with ⟨evs, ex⟩
  simp only [monitor_cpu, hl] at h
  cases ex with
  | normalReturn st' => simpa [RunResult.events] using h
  | scriptEnd st' => simpa [RunResult.events] using h
  | raised e =>
      cases e <;> simp [RunResult.events] at h <;> simpa using h

/-- C4: every Alert event emitted by a `monitor_cpu` run reports an excess
equal to the sample minus the threshold it carries, and that excess is
strictly positive. -/
theorem alert_excess_exact (st : AgentState) (ins : List CycleInput)
    (t : ℕ) (S T e : ℚ)
    (h : Event.alert t S T e ∈ (monitor_cpu st ins).events) :
    e = S - T ∧ 0 < e :=
  loopRaw_alert_excess _ ins t S T e (monitor_cpu_alert_mem st ins t S T e h)

/-- Witness for C4: a run at threshold 10 with sample 15 emits the alert
with excess 5 = 15 - 10 > 0. -/
theorem alert_excess_exact_witness :
    Event.alert 1 15 10 5 ∈
      (monitor_cpu (mkAgent 10 10)
        [{ time := 1, outcome := SampleOutcome.ok 15, stopDuring := false }]).events
    ∧ ((5 : ℚ) = 15 - 10 ∧ (0 : ℚ) < 5) :=
  ⟨by norm_num [monitor_cpu, loopRaw, cycleEvent, alert_high_cpu, mkAgent,
      RunResult.events],
   alert_excess_exact (mkAgent 10 10)
     [{ time := 1, outcome := SampleOutcome.ok 15, stopDuring := false }] 1 15 10 5
     (by norm_num [monitor_cpu, loopRaw, cycleEvent, alert_high_cpu, mkAgent,
        RunResult.events])⟩

/-- C5: whenever an exception (sample failure, other cycle error, or a user
interrupt) escapes the bare loop, `monitor_cpu` still returns normally: the
handlers append exactly one closing event — `userStop` for the interrupt,
`monitorError` otherwise — and clear `is_monitoring` before returning. -/
theorem run_catches_all_errors (st : AgentState) (ins : List CycleInput)
    (evs : List Event) (e : PyExn)
    (h : loopRaw { st with is_monitoring := true } ins = (evs, LoopExit.raised e)) :
    ∃ last, monitor_cpu st ins =
        RunResult.finished (evs ++ [last]) { st with is_monitoring := false }
      ∧ (e = PyExn.keyboardInterrupt → last = Event.userStop)
      ∧ (e = PyExn.exn → last = Event.monitorError) := by
  cases e with
  | keyboardInterrupt =>
      refine ⟨Event.userStop, ?_, ?_, ?_⟩
      · simp [monitor_cpu, h]
      · intro
        rfl
      · intro hh
        exact absurd hh (by decide)
  | exn =>
      refine ⟨Event.monitorError, ?_, ?_, ?_⟩
      · simp [monitor_cpu, h]
      · intro hh
        exact absurd hh (by decide)
      · intro
        rfl

/-- Witness for C5: a user interrupt during the first sample leads to a
normal return with the `userStop` event and the flag cleared. -/
theorem run_catches_all_errors_witness :
    loopRaw { mkAgent 10 10 with is_monitoring := true }
        [{ time := 1, outcome := SampleOutcome.sampleInterrupt, stopDuring := false }]
      = ([], LoopExit.raised PyExn.keyboardInterrupt)
    ∧ ∃ last, monitor_cpu (mkAgent 10 10)
          [{ time := 1, outcome := SampleOutcome.sampleInterrupt, stopDuring := false }]
        = RunResult.finished ([] ++ [last]) { mkAgent 10 10 with is_monitoring := false }
      ∧ (PyExn.keyboardInterrupt = PyExn.keyboardInterrupt → last = Event.userStop)
      ∧ (PyExn.keyboardInterrupt = PyExn.exn → last = Event.monitorError) :=
  ⟨by simp [loopRaw, mkAgent],
   run_catches_all_errors (mkAgent 10 10)
     [{ time := 1, outcome := SampleOutcome.sampleInterrupt, stopDuring := false }]
     [] PyExn.keyboardInterrupt (by simp [loopRaw, mkAgent])⟩

/-- C6: if `stop_monitoring` is invoked during a cycle (after any block of
successful cycles), the loop observes the cleared flag at the next loop-top
check: the one event already in flight is still emitted, no event of the
remaining script is, no further cycle begins, and `monitor_cpu` returns with
the flag down. -/
theorem stop_halts_at_next_loop_top (st : AgentState) (pre : List (ℕ × ℚ))
    (t : ℕ) (c : ℚ) (rest : List CycleInput) :
    monitor_cpu st
      (pre.map okCycle ++
        { time := t, outcome := SampleOutcome.ok c, stopDuring := true } :: rest)
    = RunResult.finished
        ((pre.map fun p => cycleEvent st p.1 p.2) ++ [cycleEvent st t c])
        { st with is_monitoring := false } := by
  show (match loopRaw { st with is_monitoring := true }
      (pre.map okCycle ++
        { time := t, outcome := SampleOutcome.ok c, stopDuring := true } :: rest) with
    | (evs, LoopExit.normalReturn st') => RunResult.finished evs st'
    | (evs, LoopExit.scriptEnd st') => RunResult.running evs st'
    | (evs, LoopExit.raised PyExn.keyboardInterrupt) =>
        RunResult.finished (evs ++ [Event.userStop]) { st with is_monitoring := false }
    | (evs, LoopExit.raised PyExn.exn) =>
        RunResult.finished (evs ++ [Event.monitorError])
          { st with is_monitoring := false }) = _
  rw [loopRaw_okRun { st with is_monitoring := true } rfl]
  rw [show loopRaw { st with is_monitoring := true }
      ({ time := t, outcome := SampleOutcome.ok c, stopDuring := true } :: rest)
    = (cycleEvent st t c ::
        (loopRaw (stop_monitoring { st with is_monitoring := true }) rest).1,
        (loopRaw (stop_monitoring { st with is_monitoring := true }) rest).2) from by
      simp [loopRaw, cycleEvent_set_monitoring]]
  rw [loopRaw_not_monitoring (stop_monitoring { st with is_monitoring := true }) rfl rest]
  simp [stop_monitoring, cycleEvent_set_monitoring]

/-- When the bare loop exits by its own condition, `monitor_cpu` finishes
with the flag down. -/
lemma monitor_cpu_finished_flag (st : AgentState) (ins : List CycleInput)
    (evs : List Event) (fin : AgentState)
    (h : monitor_cpu st ins = RunResult.finished evs fin) :
    fin.is_monitoring = false := by
  rcases hl : loopRaw { st with is_monitoring := true } ins with ⟨evs', ex⟩
  simp only [monitor_cpu, hl] at h
  cases ex with
  | normalReturn st' =>
      obtain ⟨-, h2⟩ := RunResult.finished.inj h
      rw [← h2]
      exact loopRaw_snd_normalReturn _ ins st' (by rw [hl])
  | scriptEnd st' => cases h
  | raised e =>
      cases e <;>
        · obtain ⟨-, h2⟩ := RunResult.finished.inj h
          rw [← h2]

/-- C10: whenever `monitor_cpu` returns — by the flag having been cleared,
by a user interrupt, or by a caught exception — the final state has
`is_monitoring = false`; the method can never return with the agent still
flagged as monitoring. -/
theorem run_returns_not_monitoring (st : AgentState) (ins : List CycleInput)
    (evs : List Event) (fin : AgentState)
    (h : monitor_cpu st ins = RunResult.finished evs fin) :
    fin.is_monitoring = false :=
  monitor_cpu_finished_flag st ins evs fin h

/-- Witness for C10: an interrupted run returns with the flag down. -/
theorem run_returns_not_monitoring_witness :
    monitor_cpu (mkAgent 10 10)
        [{ time := 1, outcome := SampleOutcome.sampleInterrupt, stopDuring := false }]
      = RunResult.finished [Event.userStop]
          { cpu_threshold := 10, check_interval := 10, is_monitoring := false }
    ∧ (AgentState.mk 10 10 false).is_monitoring = false :=
  ⟨by simp [monitor_cpu, loopRaw, mkAgent],
   run_returns_not_monitoring (mkAgent 10 10)
     [{ time := 1, outcome := SampleOutcome.sampleInterrupt, stopDuring := false }]
     [Event.userStop]
     { cpu_threshold := 10, check_interval := 10, is_monitoring := false }
     (by simp [monitor_cpu, loopRaw, mkAgent])⟩

/-- C7: `get_system_info` is a pure read in every agent state: the returned
snapshot carries the core count, the CPU frequency (or the `N/A` marker when
the OS reports none), memory total and available bytes, and disk total and
free bytes, and the agent state — threshold, interval, and the monitoring
flag — is returned unchanged. -/
theorem snapshot_pure_read (st : AgentState) (env : OSEnv) :
    (get_system_info st env).2 = st
    ∧ (get_system_info st env).1.cpu_count = env.cpu_count
    ∧ (env.cpu_freq = none →
        (get_system_info st env).1.cpu_frequency = FreqValue.na)
    ∧ (∀ f, env.cpu_freq = some f →
        (get_system_info st env).1.cpu_frequency = FreqValue.mhz f)
    ∧ (get_system_info st env).1.memory_total = env.memory_total
    ∧ (get_system_info st env).1.memory_available = env.memory_available
    ∧ (get_system_info st env).1.disk_total = env.disk_total
    ∧ (get_system_info st env).1.disk_free = env.disk_free := by
  refine ⟨rfl, rfl, ?_, ?_, rfl, rfl, rfl, rfl⟩
  · intro h
    simp [get_system_info, h]
  · intro f h
    simp [get_system_info, h]

/-- Witness for C7: a concrete environment with no CPU frequency, queried
while the monitor is running, leaves the state unchanged and marks the
frequency unknown. -/
theorem snapshot_pure_read_witness :
    (get_system_info { cpu_threshold := 10, check_interval := 10, is_monitoring := true }
        { cpu_count := 8, cpu_freq := none, memory_total := 17179869184
          memory_available := 8589934592, memory_free := 4294967296
          memory_percent := 50, disk_total := 1099511627776
          disk_free := 549755813888 }).2
      = { cpu_threshold := 10, check_interval := 10, is_monitoring := true }
    ∧ (get_system_info { cpu_threshold := 10, check_interval := 10, is_monitoring := true }
        { cpu_count := 8, cpu_freq := none, memory_total := 17179869184
          memory_available := 8589934592, memory_free := 4294967296
          memory_percent := 50, disk_total := 1099511627776
          disk_free := 549755813888 }).1.cpu_frequency = FreqValue.na :=
  ⟨(snapshot_pure_read { cpu_threshold := 10, check_interval := 10, is_monitoring := true }
      { cpu_count := 8, cpu_freq := none, memory_total := 17179869184
        memory_available := 8589934592, memory_free := 4294967296
        memory_percent := 50, disk_total := 1099511627776
        disk_free := 549755813888 }).1,
   (snapshot_pure_read { cpu_threshold := 10, check_interval := 10, is_monitoring := true }
      { cpu_count := 8, cpu_freq := none, memory_total := 17179869184
        memory_available := 8589934592, memory_free := 4294967296
        memory_percent := 50, disk_total := 1099511627776
        disk_free := 549755813888 }).2.2.1 rfl⟩

/-- C8: every human-readable size printed by the memory status and the
system-info dump is the raw byte count divided by `1024 ^ 3`, which is
exactly 1073741824, rendered to one decimal place. -/
theorem sizes_are_bytes_div_gib (env : OSEnv) (st : AgentState) (t : ℕ) :
    gbDivisor = 1073741824
    ∧ (monitor_memory env t).total_gb
        = round1 ((env.memory_total : ℚ) / 1073741824)
    ∧ (monitor_memory env t).available_gb
        = round1 ((env.memory_available : ℚ) / 1073741824)
    ∧ (monitor_memory env t).free_gb
        = round1 ((env.memory_free : ℚ) / 1073741824)
    ∧ (system_info_display st env).total_memory_gb
        = round1 ((env.memory_total : ℚ) / 1073741824)
    ∧ (system_info_display st env).total_disk_gb
        = round1 ((env.disk_total : ℚ) / 1073741824) := by
  have hg : ((gbDivisor : ℕ) : ℚ) = 1073741824 := by norm_num [gbDivisor]
  refine ⟨by norm_num [gbDivisor], ?_, ?_, ?_, ?_, ?_⟩ <;>
    simp [monitor_memory, system_info_display, get_system_info, hg]

end SystemAgents

namespace BitcoinPrice

/-- C9: `fetch_bitcoin_price` returns normally for every HTTP outcome —
success with or without the expected JSON fields, non-200 status, network
failure, or any other exception — and on a non-200 status it reports the
API failure without parsing the body: the result is the same whatever the
body holds. -/
theorem fetch_never_raises (o : HttpOutcome) :
    (∃ a, fetch_bitcoin_price o = Except.ok a)
    ∧ (∀ status_code body, status_code ≠ 200 →
        fetch_bitcoin_price (HttpOutcome.response status_code body)
          = Except.ok (FetchAction.apiFailure status_code)) := by
  constructor
  · cases o with
    | response s b =>
        by_cases hs : s = 200
        · subst hs
          cases b with
          | fields r => exact ⟨FetchAction.priceDisplayed r, rfl⟩
          | missingField n => exact ⟨FetchAction.parseError n, rfl⟩
          | notJson m => exact ⟨FetchAction.unexpectedError m, rfl⟩
        · exact ⟨FetchAction.apiFailure s,
            by simp [fetch_bitcoin_price, fetch_try_body, hs]⟩
    | requestExn m => exact ⟨FetchAction.networkError m, rfl⟩
    | otherExn m => exact ⟨FetchAction.unexpectedError m, rfl⟩
  · intro s b hs
    simp [fetch_bitcoin_price, fetch_try_body, hs]

/-- Witness for C9: a 404 response with an unparseable body yields the API
failure report, untouched by the body. -/
theorem fetch_never_raises_witness :
    (404 : ℕ) ≠ 200
    ∧ fetch_bitcoin_price (HttpOutcome.response 404 (BodyParse.notJson "bad"))
        = Except.ok (FetchAction.apiFailure 404) :=
  ⟨by decide,
   (fetch_never_raises (HttpOutcome.response 404 (BodyParse.notJson "bad"))).2
     404 (BodyParse.notJson "bad") (by decide)⟩

end BitcoinPrice
